import Mathlib

/-!
Shallow embedding of the procrastination-killer Pomodoro timer core:
the session-cycle state machine (`src/hooks/use-pomodoro.ts`), the local
countdown state machine (`src/hooks/use-countdown.ts`), the Tauri-backed
countdown variant (the hook driven by the external `start_timer` /
`pause_timer` / `stop_timer` service and its `tick` / `done` events), and
the App-level composition (`src/App.tsx`).

React state setters become explicit state-passing; the `onComplete` /
`onSessionComplete` callbacks become ghost counters recording how many
times they were invoked; an awaited `invoke` that may throw becomes a
Boolean `err` parameter on each operation, with exactly the mutations that
the source performs before the awaited call happening regardless of `err`.
-/

namespace Pomodoro

/-- The two session kinds of `use-pomodoro.ts` (`"focus" | "break"`);
`break` is a Lean keyword, so the second constructor is named `brk`. -/
inductive Session where
  | focus
  | brk
deriving DecidableEq

/-- `PomodoroState` from `use-pomodoro.ts`. -/
structure PomodoroState where
  currentSession : Session
  sessionCount : Nat
  totalCycles : Nat
  isActive : Bool
deriving DecidableEq

/-- The initial pomodoro state (`useState` initializer in `usePomodoro`). -/
def initialPomodoroState : PomodoroState :=
  { currentSession := Session.focus, sessionCount := 0, totalCycles := 0, isActive := false }

/-- `handleSessionComplete` from `use-pomodoro.ts`: branches on its `session`
argument; the focus branch moves to break keeping both counters, the break
branch moves to focus incrementing `sessionCount` and `totalCycles`. -/
def handleSessionComplete : Session → PomodoroState → PomodoroState
  | Session.focus, s =>
      { s with currentSession := Session.brk, isActive := false }
  | Session.brk, s =>
      { s with currentSession := Session.focus,
               sessionCount := s.sessionCount + 1,
               totalCycles := s.totalCycles + 1,
               isActive := false }

/-- `resetSession` from `use-pomodoro.ts`. -/
def resetSession (_s : PomodoroState) : PomodoroState :=
  initialPomodoroState

/-- State of the local `useCountdown` hook (`use-countdown.ts`).
`initialTotal` models the render-scope constant
`initialTotalSeconds = initialMinutes * 60 + initialSeconds` (derived from
the hook's props, not from component state); `completions` is a ghost
counter of `onComplete` invocations. -/
structure CountdownState where
  initialTotal : Nat
  totalSeconds : Nat
  isRunning : Bool
  isPaused : Bool
  isEnded : Bool
  completions : Nat
deriving DecidableEq

/-- The countdown state right after `useCountdown({initialMinutes, initialSeconds})`. -/
def initCountdown (initialMinutes initialSeconds : Nat) : CountdownState :=
  { initialTotal := initialMinutes * 60 + initialSeconds
    totalSeconds := initialMinutes * 60 + initialSeconds
    isRunning := false
    isPaused := false
    isEnded := false
    completions := 0 }

/-- `start` from `use-countdown.ts`: if ended, first restore
`totalSeconds := initialTotalSeconds` and clear `isEnded`; then set
`isRunning := true`, `isPaused := false`. -/
def start (s : CountdownState) : CountdownState :=
  let s1 := if s.isEnded
    then { s with totalSeconds := s.initialTotal, isEnded := false }
    else s
  { s1 with isRunning := true, isPaused := false }

/-- `pause` from `use-countdown.ts`. -/
def pause (s : CountdownState) : CountdownState :=
  { s with isPaused := true, isRunning := false }

/-- `stop` from `use-countdown.ts`. -/
def stop (s : CountdownState) : CountdownState :=
  { s with isRunning := false, isPaused := false, isEnded := true }

/-- `reset` from `use-countdown.ts`. -/
def reset (s : CountdownState) : CountdownState :=
  { s with totalSeconds := s.initialTotal,
           isRunning := false, isPaused := false, isEnded := false }

/-- `setTime` from `use-countdown.ts`: sets `totalSeconds` from the given
minutes and seconds and clears all three flags. It does not touch
`initialTotal`. -/
def setTime (m sec : Nat) (s : CountdownState) : CountdownState :=
  { s with totalSeconds := m * 60 + sec,
           isRunning := false, isPaused := false, isEnded := false }

/-- One firing of the `setInterval` callback in `use-countdown.ts`. The
interval exists only while `isRunning && !isPaused` (the effect tears it
down otherwise), so the tick is a no-op outside that guard. Inside it:
a positive `totalSeconds` is decremented; at zero the timer is cleared,
`isRunning := false`, `isEnded := true` and `onComplete` fires once. -/
def tick (s : CountdownState) : CountdownState :=
  if s.isRunning && !s.isPaused then
    if s.totalSeconds > 0 then
      { s with totalSeconds := s.totalSeconds - 1 }
    else
      { s with totalSeconds := 0, isRunning := false, isEnded := true,
               completions := s.completions + 1 }
  else s

/-- The events a local countdown can receive. -/
inductive CountdownEvent where
  | start
  | pause
  | stop
  | reset
  | setTime (minutes seconds : Nat)
  | tick
deriving DecidableEq

/-- Apply one event to a countdown state. -/
def applyEvent : CountdownEvent → CountdownState → CountdownState
  | CountdownEvent.start, s => start s
  | CountdownEvent.pause, s => pause s
  | CountdownEvent.stop, s => stop s
  | CountdownEvent.reset, s => reset s
  | CountdownEvent.setTime m sec, s => setTime m sec s
  | CountdownEvent.tick, s => tick s

/-- Run a sequence of events from a state. -/
def runEvents (s : CountdownState) : List CountdownEvent → CountdownState
  | [] => s
  | e :: es => runEvents (applyEvent e s) es

/-- The spec's phase view of the three Boolean flags. -/
inductive Phase where
  | idle
  | running
  | paused
  | ended
deriving DecidableEq

/-- Derived phase: `Ended` if `isEnded`, else `Running` / `Paused` by the
flags, else `Idle`. -/
def phase (s : CountdownState) : Phase :=
  if s.isEnded then Phase.ended
  else if s.isRunning then Phase.running
  else if s.isPaused then Phase.paused
  else Phase.idle

/-- Does this event carry a positive duration? Only `setTime` carries one. -/
def eventPositive : CountdownEvent → Bool
  | CountdownEvent.setTime m sec => decide (0 < m * 60 + sec)
  | _ => true

/-- Does every `setTime` event in the list carry a positive duration? -/
def positiveSetTimes (evs : List CountdownEvent) : Bool :=
  evs.all eventPositive

/-- State of the Tauri-backed `useCountdown` variant: `currentTotalSeconds`
mirrors the external timer, the three flags are as in the local hook,
`initialTotal` is the render-scope `initialTotalSeconds`, and `completions`
is a ghost counter of `onCompleteRef.current` invocations. -/
structure TauriCountdownState where
  initialTotal : Nat
  currentTotalSeconds : Nat
  isRunning : Bool
  isPaused : Bool
  isEnded : Bool
  completions : Nat
deriving DecidableEq

/-- The Tauri countdown state right after mounting the hook. -/
def tauriInit (initialMinutes initialSeconds : Nat) : TauriCountdownState :=
  { initialTotal := initialMinutes * 60 + initialSeconds
    currentTotalSeconds := initialMinutes * 60 + initialSeconds
    isRunning := false
    isPaused := false
    isEnded := false
    completions := 0 }

/-- `start` from the Tauri hook, with `err` saying whether the awaited
`invoke` throws. In the `isEnded` branch the source calls
`setCurrentTotalSeconds(initialTotalSeconds)` and `setIsEnded(false)`
BEFORE `await invoke("start_timer", ...)`, so those mutations survive an
error; `setIsRunning(true)` / `setIsPaused(false)` come after the await
and are skipped by the catch. In the paused branch (`resume_timer`) and
the plain branch (`start_timer`) nothing precedes the await. -/
def tauriStart (err : Bool) (s : TauriCountdownState) : TauriCountdownState :=
  if s.isEnded then
    let s1 := { s with currentTotalSeconds := s.initialTotal, isEnded := false }
    if err then s1 else { s1 with isRunning := true, isPaused := false }
  else
    if err then s else { s with isRunning := true, isPaused := false }

/-- `pause` from the Tauri hook: `await invoke("pause_timer")` first, then
the setters; an error leaves the state untouched. -/
def tauriPause (err : Bool) (s : TauriCountdownState) : TauriCountdownState :=
  if err then s else { s with isPaused := true, isRunning := false }

/-- `stop` from the Tauri hook. -/
def tauriStop (err : Bool) (s : TauriCountdownState) : TauriCountdownState :=
  if err then s
  else { s with isRunning := false, isPaused := false, isEnded := true }

/-- `reset` from the Tauri hook. -/
def tauriReset (err : Bool) (s : TauriCountdownState) : TauriCountdownState :=
  if err then s
  else { s with currentTotalSeconds := s.initialTotal,
                isRunning := false, isPaused := false, isEnded := false }

/-- `setTime` from the Tauri hook. -/
def tauriSetTime (err : Bool) (m sec : Nat) (s : TauriCountdownState) :
    TauriCountdownState :=
  if err then s
  else { s with currentTotalSeconds := m * 60 + sec,
                isRunning := false, isPaused := false, isEnded := false }

/-- Delivery of one `timer://tick {remaining_ms}` event: the listener sets
`currentTotalSeconds := Math.ceil(remaining_ms / 1000)`, unconditionally. -/
def tauriTick (remainingMs : Nat) (s : TauriCountdownState) : TauriCountdownState :=
  { s with currentTotalSeconds := (remainingMs + 999) / 1000 }

/-- Delivery of one `timer://done` event: the listener unconditionally sets
`currentTotalSeconds := 0`, `isRunning := false`, `isEnded := true` and
invokes `onCompleteRef.current` — there is no run-identity or generation
check guarding it. -/
def tauriDone (s : TauriCountdownState) : TauriCountdownState :=
  { s with currentTotalSeconds := 0, isRunning := false, isEnded := true,
           completions := s.completions + 1 }

/-- The App-level composition state (`App.tsx`): the two configured
durations, the pomodoro session state and the countdown it drives. -/
structure AppState where
  focusMinutes : Nat
  breakMinutes : Nat
  pomodoro : PomodoroState
  countdown : CountdownState
deriving DecidableEq

/-- `currentTime.minutes` from `App.tsx`: the focus duration while the
current session is focus, the break duration otherwise. -/
def currentTimeMinutes (a : AppState) : Nat :=
  if a.pomodoro.currentSession = Session.focus then a.focusMinutes
  else a.breakMinutes

/-- The `App.tsx` effect with dependency array
`[pomodoro.state.currentSession, focusMinutes, breakMinutes]`: on any
change of those values the hook has already re-rendered with
`initialMinutes = currentTime.minutes`, then the effect runs
`countdown.reset()` followed by `countdown.setTime(currentTime.minutes,
currentTime.seconds)` (seconds is always 0). -/
def runResetEffect (a : AppState) : AppState :=
  let d := currentTimeMinutes a * 60
  { a with countdown :=
      setTime (currentTimeMinutes a) 0 (reset { a.countdown with initialTotal := d }) }

/-- `handleFocusMinutesChange` propagated through React: storing an equal
value leaves the dependency array unchanged so the effect does not re-run;
a different value re-renders and fires the reset effect. -/
def updateFocusMinutes (m : Nat) (a : AppState) : AppState :=
  if m = a.focusMinutes then a
  else runResetEffect { a with focusMinutes := m }

/-- `handleBreakMinutesChange` propagated through React, as for focus. -/
def updateBreakMinutes (m : Nat) (a : AppState) : AppState :=
  if m = a.breakMinutes then a
  else runResetEffect { a with breakMinutes := m }

/-- A Tauri countdown run started for 3 seconds (a fresh hook with a
3-second duration whose `start` succeeded). -/
def startedRun3 : TauriCountdownState :=
  tauriStart false (tauriInit 0 3)

/-- The local countdown after a 3-second run has ticked to completion. -/
def completedRun3 : CountdownState :=
  { initialTotal := 3, totalSeconds := 0, isRunning := false,
    isPaused := false, isEnded := true, completions := 1 }

/-- A Tauri countdown configured for 25 minutes whose run has ended
(phase Ended, zero remaining, one completion already delivered). -/
def endedAtZero : TauriCountdownState :=
  { initialTotal := 1500, currentTotalSeconds := 0, isRunning := false,
    isPaused := false, isEnded := true, completions := 1 }

/-- An App with the default 25/5 configuration whose focus countdown is
running mid-session with 1000 seconds remaining. -/
def appRunning : AppState :=
  { focusMinutes := 25, breakMinutes := 5,
    pomodoro := initialPomodoroState,
    countdown := { initialTotal := 1500, totalSeconds := 1000, isRunning := true,
                   isPaused := false, isEnded := false, completions := 0 } }

/-- The invariant behind the amended C6: the configured duration is positive
and a zero remaining time forces one of the Ended / Running / Paused flags. -/
def zeroImpliesFlag (s : CountdownState) : Prop :=
  0 < s.initialTotal ∧
  (s.totalSeconds = 0 → (s.isEnded || s.isRunning || s.isPaused) = true)

/-- Every event preserves mutual exclusion of `isRunning` and `isPaused`:
each operation that sets one of them true sets the other false, and the
tick guard only fires while running and not paused. -/
theorem applyEvent_mutex (e : CountdownEvent) (s : CountdownState)
    (h : (s.isRunning && s.isPaused) = false) :
    ((applyEvent e s).isRunning && (applyEvent e s).isPaused) = false := by
  obtain ⟨i, t, r, p, en, c⟩ := s
  cases e <;> cases r <;> cases p <;> cases en <;>
    simp_all [applyEvent, start, pause, stop, reset, setTime, tick] <;>
    split <;> simp

/-- Mutual exclusion of the running and paused flags is preserved along any
event trace. -/
theorem runEvents_mutex :
    ∀ (evs : List CountdownEvent) (s : CountdownState),
      (s.isRunning && s.isPaused) = false →
      ((runEvents s evs).isRunning && (runEvents s evs).isPaused) = false
  | [], _, h => h
  | e :: es, s, h => runEvents_mutex es (applyEvent e s) (applyEvent_mutex e s h)

/-- Every positive-duration event preserves `zeroImpliesFlag`. -/
theorem applyEvent_zeroFlag (e : CountdownEvent) (s : CountdownState)
    (hpos : eventPositive e = true) (h : zeroImpliesFlag s) :
    zeroImpliesFlag (applyEvent e s) := by
  obtain ⟨i, t, r, p, en, c⟩ := s
  obtain ⟨h1, h2⟩ := h
  simp only [zeroImpliesFlag] at h2 ⊢
  cases e <;> cases r <;> cases p <;> cases en <;>
    simp_all [applyEvent, start, pause, stop, reset, setTime, tick, eventPositive] <;>
    first
      | omega
      | (split <;> simp_all)

/-- `zeroImpliesFlag` is preserved along any trace whose `setTime` events
all carry positive durations. -/
theorem runEvents_zeroFlag :
    ∀ (evs : List CountdownEvent) (s : CountdownState),
      positiveSetTimes evs = true → zeroImpliesFlag s →
      zeroImpliesFlag (runEvents s evs)
  | [], _, _, h => h
  | e :: es, s, hp, h => by
      have hc : eventPositive e = true ∧ positiveSetTimes es = true := by
        simpa [positiveSetTimes, List.all_cons, Bool.and_eq_true] using hp
      exact runEvents_zeroFlag es (applyEvent e s) hc.2 (applyEvent_zeroFlag e s hc.1 h)

end Pomodoro

namespace Pomodoro

/-- Claim C1: for every session-cycle state, `handleSessionComplete` on a
completed focus session moves `currentSession` to break, deactivates, and
leaves `sessionCount` and `totalCycles` unchanged; on a completed break it
moves back to focus, deactivates, and increments both counters by exactly
one. -/
theorem claim1_handleSessionComplete (s : PomodoroState) :
    (handleSessionComplete Session.focus s).currentSession = Session.brk ∧
    (handleSessionComplete Session.focus s).isActive = false ∧
    (handleSessionComplete Session.focus s).sessionCount = s.sessionCount ∧
    (handleSessionComplete Session.focus s).totalCycles = s.totalCycles ∧
    (handleSessionComplete Session.brk s).currentSession = Session.focus ∧
    (handleSessionComplete Session.brk s).isActive = false ∧
    (handleSessionComplete Session.brk s).sessionCount = s.sessionCount + 1 ∧
    (handleSessionComplete Session.brk s).totalCycles = s.totalCycles + 1 := by
  simp [handleSessionComplete]

/-- Claim C2 counterexample: delivering two terminal done notifications for
the same started run invokes the completion handler twice, not exactly
once — the done listener performs no duplicate detection. -/
theorem claim2_counterexample :
    (tauriDone (tauriDone startedRun3)).completions = 2 ∧
    ¬(tauriDone (tauriDone startedRun3)).completions = 1 := by
  decide

/-- Claim C2 (amended): every delivered done notification unconditionally
zeroes the remaining time, clears Running, sets Ended and invokes the
completion handler once; hence two deliveries invoke it twice. Uniqueness
per run rests on the external service emitting done at most once, not on
any de-duplication in the Countdown. -/
theorem claim2_amended (s : TauriCountdownState) :
    (tauriDone s).completions = s.completions + 1 ∧
    (tauriDone s).currentTotalSeconds = 0 ∧
    (tauriDone s).isRunning = false ∧
    (tauriDone s).isEnded = true ∧
    (tauriDone (tauriDone s)).completions = s.completions + 2 := by
  simp [tauriDone]

/-- Claim C3: a countdown started with 3 seconds remaining and left to tick
to completion fires the completion callback exactly once, ending with
phase Ended and zero remaining. -/
theorem claim3_runToCompletion (n : Nat) (h : 4 ≤ n) :
    (tick^[n] (start (initCountdown 0 3))).completions = 1 ∧
    phase (tick^[n] (start (initCountdown 0 3))) = Phase.ended ∧
    (tick^[n] (start (initCountdown 0 3))).totalSeconds = 0 := by
  have h4 : tick^[4] (start (initCountdown 0 3)) = completedRun3 := by decide
  have hfix : tick completedRun3 = completedRun3 := by decide
  obtain ⟨k, rfl⟩ : ∃ k, n = k + 4 := ⟨n - 4, (Nat.sub_add_cancel h).symm⟩
  rw [Function.iterate_add_apply, h4, Function.iterate_fixed hfix]
  decide

/-- Witness for C3 at six elapsed interval firings. -/
theorem claim3_witness :
    4 ≤ 6 ∧
    ((tick^[6] (start (initCountdown 0 3))).completions = 1 ∧
     phase (tick^[6] (start (initCountdown 0 3))) = Phase.ended ∧
     (tick^[6] (start (initCountdown 0 3))).totalSeconds = 0) :=
  ⟨by decide, claim3_runToCompletion 6 (by decide)⟩

/-- Claim C4: for all minutes and seconds in range, `setTime` from any state
immediately yields remaining time of exactly minutes*60 + seconds and
phase Idle. -/
theorem claim4_setTime (m sec : Nat) (_hsec : sec ≤ 59) (s : CountdownState) :
    (setTime m sec s).totalSeconds = m * 60 + sec ∧
    phase (setTime m sec s) = Phase.idle := by
  simp [setTime, phase]

/-- Witness for C4 at `setTime 2 30` from the default 25-minute state. -/
theorem claim4_witness :
    30 ≤ 59 ∧
    ((setTime 2 30 (initCountdown 25 0)).totalSeconds = 2 * 60 + 30 ∧
     phase (setTime 2 30 (initCountdown 25 0)) = Phase.idle) :=
  ⟨by decide, claim4_setTime 2 30 (by decide) (initCountdown 25 0)⟩

/-- Claim C5 counterexample: from the default 25-minute countdown,
`setTime 2 30` followed by `reset` restores 1500 seconds, not the 150
seconds most recently supplied via `setTime`; likewise `start` from Ended
restores 1500. `setTime` never updates the configured initial duration. -/
theorem claim5_counterexample :
    (reset (setTime 2 30 (initCountdown 25 0))).totalSeconds = 1500 ∧
    ¬(reset (setTime 2 30 (initCountdown 25 0))).totalSeconds = 2 * 60 + 30 ∧
    ¬(start (stop (setTime 2 30 (initCountdown 25 0)))).totalSeconds = 2 * 60 + 30 := by
  decide

/-- Claim C5 (amended): `setTime` updates only the remaining time and leaves
`initialTotal` unchanged, so a later `reset`, or a `start` from phase
Ended, restores the hook's configured initial duration — not the value
most recently supplied via `setTime`. -/
theorem claim5_amended (m sec : Nat) (s : CountdownState) :
    (setTime m sec s).initialTotal = s.initialTotal ∧
    (reset (setTime m sec s)).totalSeconds = s.initialTotal ∧
    (start (stop (setTime m sec s))).totalSeconds = s.initialTotal := by
  simp [setTime, reset, stop, start]

/-- Claim C6 counterexample: after the single event `setTime 0 0` — valid
per the spec's own input domain — the countdown has zero remaining time
while none of the Ended, Running or Paused flags is set (phase Idle), so
zero remaining does not imply Ended or being about to end. -/
theorem claim6_counterexample :
    ¬(∀ evs : List CountdownEvent,
        (runEvents (initCountdown 25 0) evs).totalSeconds = 0 →
        ((runEvents (initCountdown 25 0) evs).isEnded ||
         (runEvents (initCountdown 25 0) evs).isRunning ||
         (runEvents (initCountdown 25 0) evs).isPaused) = true) := by
  intro h
  exact absurd (h [CountdownEvent.setTime 0 0] (by decide)) (by decide)

/-- Claim C6 (amended): if the configured duration is positive and every
`setTime` in the trace supplies a positive duration, then any reachable
state with zero remaining time has phase Ended, Running or Paused — never
Idle. (Running at zero is the state immediately prior to entering Ended;
Paused at zero is also reachable, by pausing after the tick to zero.) -/
theorem claim6_amended (m sec : Nat) (evs : List CountdownEvent)
    (hpos : 0 < m * 60 + sec) (hevs : positiveSetTimes evs = true) :
    (runEvents (initCountdown m sec) evs).totalSeconds = 0 →
    ((runEvents (initCountdown m sec) evs).isEnded ||
     (runEvents (initCountdown m sec) evs).isRunning ||
     (runEvents (initCountdown m sec) evs).isPaused) = true := by
  have h0 : zeroImpliesFlag (initCountdown m sec) := by
    refine ⟨by simpa [initCountdown] using hpos, ?_⟩
    intro ht
    simp [initCountdown] at ht
    omega
  exact (runEvents_zeroFlag evs (initCountdown m sec) hevs h0).2

/-- Witness for the amended C6: a one-second countdown started, ticked to
zero and then paused is at zero remaining with the Paused flag set. -/
theorem claim6_witness :
    (0 < 0 * 60 + 1 ∧
     positiveSetTimes
       [CountdownEvent.start, CountdownEvent.tick, CountdownEvent.pause] = true) ∧
    ((runEvents (initCountdown 0 1)
        [CountdownEvent.start, CountdownEvent.tick, CountdownEvent.pause]).isEnded ||
     (runEvents (initCountdown 0 1)
        [CountdownEvent.start, CountdownEvent.tick, CountdownEvent.pause]).isRunning ||
     (runEvents (initCountdown 0 1)
        [CountdownEvent.start, CountdownEvent.tick, CountdownEvent.pause]).isPaused) = true :=
  ⟨⟨by decide, by decide⟩,
   claim6_amended 0 1 [CountdownEvent.start, CountdownEvent.tick, CountdownEvent.pause]
     (by decide) (by decide) (by decide)⟩

/-- Claim C7 counterexample: calling `start` on an Ended countdown while the
external service call fails does NOT retain the prior state — the source
restores the initial duration and clears Ended before the awaited call, so
the error leaves remaining time at 1500 and phase no longer Ended. -/
theorem claim7_counterexample :
    ¬tauriStart true endedAtZero = endedAtZero ∧
    (tauriStart true endedAtZero).currentTotalSeconds = 1500 ∧
    (tauriStart true endedAtZero).isEnded = false ∧
    endedAtZero.currentTotalSeconds = 0 ∧
    endedAtZero.isEnded = true := by
  decide

/-- Claim C7 (amended): on a service error, `pause`, `stop`, `reset` and
`setTime` leave the state unchanged, and so does `start` from any
non-Ended phase; `start` from Ended, however, has already restored the
initial duration and cleared the Ended flag before the failing call, and
only the Running/Paused updates are abandoned. -/
theorem claim7_amended (s : TauriCountdownState) (m sec : Nat) :
    tauriPause true s = s ∧
    tauriStop true s = s ∧
    tauriReset true s = s ∧
    tauriSetTime true m sec s = s ∧
    tauriStart true s =
      (if s.isEnded then
        { s with currentTotalSeconds := s.initialTotal, isEnded := false }
       else s) := by
  refine ⟨rfl, rfl, rfl, rfl, ?_⟩
  by_cases h : s.isEnded <;> simp [tauriStart, h]

/-- Claim C8 counterexample: with the focus countdown Running at 1000
seconds remaining, updating `focusMinutes` to 30 immediately changes the
countdown — it is reset to 1800 seconds and is no longer Running; updating
`breakMinutes` to 10 mid-focus-run also changes the running countdown. -/
theorem claim8_counterexample :
    appRunning.countdown.isRunning = true ∧
    ¬(updateFocusMinutes 30 appRunning).countdown = appRunning.countdown ∧
    (updateFocusMinutes 30 appRunning).countdown.totalSeconds = 1800 ∧
    (updateFocusMinutes 30 appRunning).countdown.isRunning = false ∧
    ¬(updateBreakMinutes 10 appRunning).countdown = appRunning.countdown := by
  decide

/-- Claim C8 (amended): updating `focusMinutes` or `breakMinutes` to a
different value immediately re-runs the reset effect — the countdown, even
when Running or Paused, is reset to the new current session duration with
all phase flags cleared (phase Idle); only storing an unchanged value
leaves the countdown untouched. -/
theorem claim8_amended (a : AppState) (m : Nat) :
    (updateFocusMinutes m a).countdown =
      (if m = a.focusMinutes then a.countdown
       else
        { a.countdown with
            initialTotal := currentTimeMinutes { a with focusMinutes := m } * 60,
            totalSeconds := currentTimeMinutes { a with focusMinutes := m } * 60,
            isRunning := false, isPaused := false, isEnded := false }) ∧
    (updateBreakMinutes m a).countdown =
      (if m = a.breakMinutes then a.countdown
       else
        { a.countdown with
            initialTotal := currentTimeMinutes { a with breakMinutes := m } * 60,
            totalSeconds := currentTimeMinutes { a with breakMinutes := m } * 60,
            isRunning := false, isPaused := false, isEnded := false }) := by
  constructor
  · by_cases h : m = a.focusMinutes <;>
      simp [updateFocusMinutes, runResetEffect, setTime, reset, h]
  · by_cases h : m = a.breakMinutes <;>
      simp [updateBreakMinutes, runResetEffect, setTime, reset, h]

/-- Claim C9: along every event trace from a freshly initialized countdown,
`isRunning` and `isPaused` are never simultaneously true. -/
theorem claim9_mutualExclusion (m sec : Nat) (evs : List CountdownEvent) :
    ((runEvents (initCountdown m sec) evs).isRunning &&
     (runEvents (initCountdown m sec) evs).isPaused) = false :=
  runEvents_mutex evs (initCountdown m sec) (by simp [initCountdown])

/-- Claim C10: `handleSessionComplete` branches solely on its argument —
overwriting the input's `currentSession` never changes the result — and a
break-completion increments both counters and forces focus even when the
state is already in focus, so two consecutive break-completions increment
both counters by two. -/
theorem claim10_argumentOnly (sess : Session) (s : PomodoroState) (c : Session) :
    handleSessionComplete sess { s with currentSession := c } =
      handleSessionComplete sess s ∧
    (handleSessionComplete Session.brk
        { s with currentSession := Session.focus }).currentSession = Session.focus ∧
    (handleSessionComplete Session.brk
        { s with currentSession := Session.focus }).sessionCount = s.sessionCount + 1 ∧
    (handleSessionComplete Session.brk
        { s with currentSession := Session.focus }).totalCycles = s.totalCycles + 1 ∧
    (handleSessionComplete Session.brk
        (handleSessionComplete Session.brk s)).sessionCount = s.sessionCount + 2 ∧
    (handleSessionComplete Session.brk
        (handleSessionComplete Session.brk s)).totalCycles = s.totalCycles + 2 := by
  cases sess <;> simp [handleSessionComplete]

end Pomodoro
